import Mathlib

/-!
Verification of the order Lambda handlers and the SIEM sink factory of the
AWS-multiregion-ecommerce repository, as a shallow embedding of
`src/functions/order/create_order.py`, `src/functions/order/get_order.py`
and `infrastructure/lib/security/siem_sinks_stack.py`.

The Python `json.loads(..., parse_float=Decimal)` parses every JSON number
either as an `int` or as an exact `Decimal`; all arithmetic the handlers do
on these values (`Decimal(str(price)) * quantity`, `sum`) is exact decimal
arithmetic on currency-sized operands, so numbers are modelled as `ℚ`.
External effects (DynamoDB `put_item`/`query`, EventBridge `put_events`,
`uuid.uuid4()`, the clock) are modelled as explicit inputs: an environment
record supplies the generated id, the timestamps and the success/failure of
each service call, and the handler result records the successful writes and
publishes alongside the HTTP response.
-/

/-- A parsed JSON value as produced by `json.loads(body, parse_float=Decimal)`:
numbers are exact (int or `Decimal`), objects are Python dicts (represented
as their entry list, keys unique). -/
inductive Json where
  | null
  | bool (b : Bool)
  | num (q : ℚ)
  | str (s : String)
  | arr (elems : List Json)
  | obj (fields : List (String × Json))
deriving Repr

/-- Python truthiness of a parsed JSON value (`not body.get(...)`,
`if not order`): `None`, `False`, `0`, `""`, `[]`, `{}` are falsy. -/
def pyTruthy : Json → Bool
  | .null => false
  | .bool b => b
  | .num q => decide (q ≠ 0)
  | .str s => s ≠ ""
  | .arr elems => !elems.isEmpty
  | .obj fields => !fields.isEmpty

/-- Python `dict.get(k)`: the value at `k`, or `None` when absent. -/
def dictGet (fields : List (String × Json)) (k : String) : Json :=
  match fields.find? (fun p => p.1 == k) with
  | some p => p.2
  | none => .null

/-- Python `dict[k]`: `some` value, or `none` meaning a `KeyError`. -/
def dictLookup (fields : List (String × Json)) (k : String) : Option Json :=
  (fields.find? (fun p => p.1 == k)).map (fun p => p.2)

/-- The DynamoDB item built by `create_order_record` (create_order.py,
lines 23 to 34). `customerId` and `items` are copied from the request body
unchanged; `totalAmount` is the computed `Decimal` sum. -/
structure OrderItem where
  orderId : String
  timestamp : String
  customerId : Json
  items : Json
  totalAmount : ℚ
  status : String
  ttl : Int
deriving Repr

/-- Body of an HTTP response as the handlers build it with `json.dumps`:
an `\x7b"error": msg\x7d` object, a freshly created order
(`json.dumps(order, default=str)`), or a stored item read back
(`json.dumps(order, default=str)` in get_order.py). -/
inductive RespBody where
  | errorMsg (msg : String)
  | orderBody (o : OrderItem)
  | jsonBody (j : Json)
deriving Repr

/-- The `\x7b"statusCode": ..., "body": ...\x7d` dict a handler returns. -/
structure HttpResponse where
  statusCode : Nat
  body : RespBody
deriving Repr

namespace CreateOrder

/-- One EventBridge entry as built by `publish_order_event`
(create_order.py, lines 46 to 55). -/
structure OrderEvent where
  source : String
  detailType : String
  detail : OrderItem
  eventBusName : String
deriving Repr

/-- Ambient inputs of one create-order invocation: the id from
`uuid.uuid4()`, the ISO timestamp from `datetime.now(timezone.utc)`, the
epoch seconds of `datetime.now().timestamp()` (the two clock reads are
taken at the same instant, whole seconds, so the `int()` truncation is
absorbed), the environment variables, and whether each AWS call succeeds
or raises. -/
structure CreateEnv where
  orderId : String
  timestamp : String
  nowEpoch : Int
  eventBusArn : String
  putItemOk : Bool
  putEventsOk : Bool
deriving Repr

/-- Outcome of `json.loads(event["body"], parse_float=Decimal)`:
either a `json.JSONDecodeError` or a parsed value. -/
inductive ParseResult where
  | jsonError
  | parsed (j : Json)
deriving Repr

/-- The generator expression of create_order.py lines 28 to 31:
`sum(Decimal(str(item["price"])) * item["quantity"] for item in items)`.
Each element must be a dict carrying numeric `price` and `quantity`;
anything else raises (`TypeError`/`KeyError`/`InvalidOperation`),
modelled as `Except.error`. `Decimal(str(p))` of a parsed JSON number is
the number itself. -/
def sumLineTotals : List Json → Except Unit ℚ
  | [] => .ok 0
  | item :: rest =>
    match item with
    | .obj fields =>
      match dictLookup fields "price", dictLookup fields "quantity" with
      | some (.num p), some (.num q) =>
        (sumLineTotals rest).map (fun t => p * q + t)
      | _, _ => .error ()
    | _ => .error ()

/-- `create_order_record` (create_order.py lines 14 to 37) up to the
`put_item` call: builds the item dict from the body fields, the fresh id,
the timestamp, the computed total, status `"PENDING"` and a TTL of now
plus 90 days. `Except.error` is any exception escaping the `for` loop or
the `dict[...]` accesses. -/
def create_order_record (env : CreateEnv) (fields : List (String × Json)) :
    Except Unit OrderItem :=
  match dictLookup fields "customerId", dictLookup fields "items" with
  | some customerId, some items =>
    match items with
    | .arr elems =>
      (sumLineTotals elems).map (fun total =>
        { orderId := env.orderId
          timestamp := env.timestamp
          customerId := customerId
          items := .arr elems
          totalAmount := total
          status := "PENDING"
          ttl := env.nowEpoch + 90 * 24 * 60 * 60 })
    | _ => .error ()
  | _, _ => .error ()

/-- The event entry `publish_order_event(order, event_type)` sends: source
`"ecommerce.orders"`, the given detail type, the full order as detail, and
the bus name taken from the last `/`-segment of `EVENT_BUS_ARN`. -/
def publish_order_event (env : CreateEnv) (order : OrderItem)
    (eventType : String) : OrderEvent :=
  { source := "ecommerce.orders"
    detailType := eventType
    detail := order
    eventBusName := (env.eventBusArn.splitOn "/").getLastD "" }

/-- Result of one handler invocation: the HTTP response together with the
items successfully written to the store and the events successfully
published. -/
structure HandlerOutcome where
  response : HttpResponse
  writes : List OrderItem
  events : List OrderEvent
deriving Repr

/-- The create-order `handler` (create_order.py lines 58 to 89), as a
function of the parse outcome of the request body. A body that is not a
dict makes `body.get` raise `AttributeError`, caught by the generic
`except Exception` branch; a failing `put_item` or `put_events` raises
likewise. `json.JSONDecodeError` is caught separately as 400. -/
def handler (env : CreateEnv) (p : ParseResult) : HandlerOutcome :=
  match p with
  | .jsonError =>
    ⟨⟨400, .errorMsg "Invalid JSON"⟩, [], []⟩
  | .parsed (.obj fields) =>
    if !pyTruthy (dictGet fields "customerId") ||
       !pyTruthy (dictGet fields "items") then
      ⟨⟨400, .errorMsg "Missing required fields"⟩, [], []⟩
    else
      match create_order_record env fields with
      | .error _ => ⟨⟨500, .errorMsg "Internal server error"⟩, [], []⟩
      | .ok order =>
        if env.putItemOk then
          if env.putEventsOk then
            ⟨⟨200, .orderBody order⟩, [order],
              [publish_order_event env order "OrderCreated"]⟩
          else
            ⟨⟨500, .errorMsg "Internal server error"⟩, [order], []⟩
        else
          ⟨⟨500, .errorMsg "Internal server error"⟩, [], []⟩
  | .parsed _ =>
    ⟨⟨500, .errorMsg "Internal server error"⟩, [], []⟩

end CreateOrder

namespace GetOrder

/-- The value of `event["pathParameters"]` as API Gateway delivers it:
the key can be absent from the event (`KeyError`), can be `None` (proxy
routes with no path parameters: subscripting `None` raises `TypeError`),
or can be a dict of string parameters. -/
inductive PathParams where
  | absent
  | null
  | params (m : List (String × String))
deriving Repr

/-- Outcome of the DynamoDB `table.query` on the `orderId` partition key
(get_order.py lines 21 to 23): the `Items` list of the response, or a
`botocore` `ClientError` raised by the call. -/
inductive QueryOutcome where
  | items (xs : List Json)
  | clientError
deriving Repr

/-- `get_order_by_id` (get_order.py lines 12 to 29): queries by partition
key and returns the first item, `None` when the query matched nothing,
and also `None` when the query raised a `ClientError` (the error is
caught, logged and swallowed). -/
def get_order_by_id (q : QueryOutcome) : Option Json :=
  match q with
  | .clientError => none
  | .items [] => none
  | .items (x :: _) => some x

/-- The get-order `handler` (get_order.py lines 32 to 56).
`event["pathParameters"]["orderId"]` raises `KeyError` when either key is
missing (caught as 400) but `TypeError` when `pathParameters` is `None`
(caught by the generic branch as 500); `if not order` sends both a miss
and a falsy item to 404. -/
def handler (pp : PathParams) (q : QueryOutcome) : HttpResponse :=
  match pp with
  | .absent => ⟨400, .errorMsg "Missing orderId parameter"⟩
  | .null => ⟨500, .errorMsg "Internal server error"⟩
  | .params m =>
    match m.find? (fun p => p.1 == "orderId") with
    | none => ⟨400, .errorMsg "Missing orderId parameter"⟩
    | some _ =>
      match get_order_by_id q with
      | none => ⟨404, .errorMsg "Order not found"⟩
      | some order =>
        if pyTruthy order then ⟨200, .jsonBody order⟩
        else ⟨404, .errorMsg "Order not found"⟩

end GetOrder

namespace SiemSinks

/-- The three sink classes the factory can instantiate
(siem_sinks_stack.py): `OpenSearchSink`, `SplunkSink`, `ElasticSink`. -/
inductive SiemSink where
  | openSearchSink
  | splunkSink
  | elasticSink
deriving Repr, DecidableEq

/-- `SiemSinksFactory.create_sink` (siem_sinks_stack.py lines 317 to 325):
maps the three recognized configuration strings to their sink class and
raises `ValueError(f"Unsupported SIEM sink type: ...")` for any other
string, constructing nothing. -/
def create_sink (sink_type : String) : Except String SiemSink :=
  if sink_type == "opensearch" then .ok .openSearchSink
  else if sink_type == "splunk" then .ok .splunkSink
  else if sink_type == "elastic" then .ok .elasticSink
  else .error ("Unsupported SIEM sink type: " ++ sink_type)

end SiemSinks

namespace CreateOrder

/-- The price and quantity of each element of `items`, defined when every
element has the shape the data model prescribes (a dict with numeric
`price` and `quantity`). -/
def itemFields : List Json → Option (List (ℚ × ℚ))
  | [] => some []
  | .obj fields :: rest =>
    match dictLookup fields "price", dictLookup fields "quantity" with
    | some (.num p), some (.num q) =>
      (itemFields rest).map (fun l => (p, q) :: l)
    | _, _ => none
  | _ :: _ => none

/-- Following the spec text: `totalAmount` = exact sum of price times
quantity across items, stated independently of the code path that computes
it, to be compared with `sumLineTotals`. -/
def specTotal (pqs : List (ℚ × ℚ)) : ℚ :=
  (pqs.map (fun pq => pq.1 * pq.2)).sum

/-- The `totalAmount` carried by a 200 response body, when there is one. -/
def responseTotal (o : HandlerOutcome) : Option ℚ :=
  match o.response.body with
  | .orderBody it => some it.totalAmount
  | _ => none

end CreateOrder

theorem dictGet_eq_of_lookup (fields : List (String × Json)) (k : String)
    (v : Json) (h : dictLookup fields k = some v) : dictGet fields k = v := by
  unfold dictGet dictLookup at *
  cases hf : fields.find? (fun p => p.1 == k) with
  | none => simp [hf] at h
  | some p => simp [hf] at h ⊢; exact h

theorem dictLookup_of_truthy (fields : List (String × Json)) (k : String)
    (h : pyTruthy (dictGet fields k) = true) :
    dictLookup fields k = some (dictGet fields k) := by
  unfold dictGet dictLookup at *
  cases hf : fields.find? (fun p => p.1 == k) with
  | none => simp [hf, pyTruthy] at h
  | some p => simp [hf]

namespace CreateOrder

theorem sumLineTotals_eq_specTotal (elems : List Json) (pqs : List (ℚ × ℚ))
    (h : itemFields elems = some pqs) :
    sumLineTotals elems = .ok (specTotal pqs) := by
  induction elems generalizing pqs with
  | nil =>
    simp [itemFields] at h
    subst h
    simp [sumLineTotals, specTotal]
  | cons item rest ih =>
    cases item with
    | obj fields =>
      unfold itemFields at h
      cases hp : dictLookup fields "price" with
      | none => simp [hp] at h
      | some vp =>
        cases vp with
        | num p =>
          cases hq : dictLookup fields "quantity" with
          | none => simp [hp, hq] at h
          | some vq =>
            cases vq with
            | num q =>
              simp [hp, hq] at h
              cases hr : itemFields rest with
              | none => simp [hr] at h
              | some rest' =>
                rw [hr] at h
                simp at h
                subst h
                simp [sumLineTotals, hp, hq, ih rest' hr, Except.map, specTotal]
            | null => simp [hp, hq] at h
            | bool b => simp [hp, hq] at h
            | str s => simp [hp, hq] at h
            | arr es => simp [hp, hq] at h
            | obj fs => simp [hp, hq] at h
        | null => simp [hp] at h
        | bool b => simp [hp] at h
        | str s => simp [hp] at h
        | arr es => simp [hp] at h
        | obj fs => simp [hp] at h
    | null => simp [itemFields] at h
    | bool b => simp [itemFields] at h
    | num q => simp [itemFields] at h
    | str s => simp [itemFields] at h
    | arr es => simp [itemFields] at h

end CreateOrder

namespace CreateOrder

/-- The example items of the spec: price 10.99 quantity 2, price 29.99
quantity 1. -/
def itemsW : List Json :=
  [.obj [("id", .str "item1"), ("price", .num 10.99), ("quantity", .num 2)],
   .obj [("id", .str "item2"), ("price", .num 29.99), ("quantity", .num 1)]]

/-- A concrete valid request body. -/
def fieldsW : List (String × Json) :=
  [("customerId", .str "c1"), ("items", .arr itemsW)]

/-- A concrete invocation environment where both AWS calls succeed. -/
def envW : CreateEnv :=
  { orderId := "7f9c0e0a-1111-2222-3333-444455556666"
    timestamp := "2026-10-12T00:00:00+00:00"
    nowEpoch := 1760227200
    eventBusArn := "arn:aws:events:ap-southeast-2:111122223333:event-bus/ecommerce-bus"
    putItemOk := true
    putEventsOk := true }

/-- The same environment with a failing `put_events` call. -/
def envFailW : CreateEnv := { envW with putEventsOk := false }

theorem create_order_record_eq (env : CreateEnv) (fields : List (String × Json))
    (cid : Json) (elems : List Json) (total : ℚ)
    (hc : dictLookup fields "customerId" = some cid)
    (hi : dictLookup fields "items" = some (.arr elems))
    (ht : sumLineTotals elems = .ok total) :
    create_order_record env fields = .ok
      { orderId := env.orderId, timestamp := env.timestamp, customerId := cid,
        items := .arr elems, totalAmount := total, status := "PENDING",
        ttl := env.nowEpoch + 90 * 24 * 60 * 60 } := by
  simp [create_order_record, hc, hi, ht, Except.map]

/-- Claim C1: for every valid create-order request (body parses to a dict
with truthy `customerId` and a non-empty `items` array whose elements
carry numeric price and quantity) processed with both service calls
succeeding, the `totalAmount` of the single persisted record and of the
returned order is the exact decimal (rational) sum of price times
quantity over the items. -/
theorem create_total_exact (env : CreateEnv) (fields : List (String × Json))
    (elems : List Json) (pqs : List (ℚ × ℚ))
    (hc : pyTruthy (dictGet fields "customerId") = true)
    (hi : dictLookup fields "items" = some (.arr elems))
    (hne : elems ≠ [])
    (hw : itemFields elems = some pqs)
    (hput : env.putItemOk = true) (hpub : env.putEventsOk = true) :
    (handler env (.parsed (.obj fields))).writes.map OrderItem.totalAmount
      = [specTotal pqs] ∧
    responseTotal (handler env (.parsed (.obj fields)))
      = some (specTotal pqs) := by
  obtain ⟨e, es, rfl⟩ := List.exists_cons_of_ne_nil hne
  have ht := sumLineTotals_eq_specTotal _ _ hw
  have hcl := dictLookup_of_truthy fields "customerId" hc
  have hgi := dictGet_eq_of_lookup fields "items" _ hi
  have hrec := create_order_record_eq env fields _ _ _ hcl hi ht
  have hb : (!pyTruthy (dictGet fields "customerId") ||
      !pyTruthy (dictGet fields "items")) = false := by
    rw [hc, hgi]; simp [pyTruthy]
  simp [handler, hb, hrec, hput, hpub, responseTotal]

/-- Claim C1 witness: the spec example, items 10.99 times 2 plus 29.99
times 1, persists and returns exactly 51.97. -/
theorem create_total_exact_witness :
    (handler envW (.parsed (.obj fieldsW))).writes.map OrderItem.totalAmount
      = [(51.97 : ℚ)] ∧
    responseTotal (handler envW (.parsed (.obj fieldsW)))
      = some (51.97 : ℚ) := by
  have h := create_total_exact envW fieldsW itemsW [(10.99, 2), (29.99, 1)]
    rfl rfl (List.cons_ne_nil _ _) rfl rfl rfl
  have hs : specTotal [((10.99 : ℚ), 2), (29.99, 1)] = 51.97 := by
    norm_num [specTotal]
  rw [hs] at h
  exact h

end CreateOrder

namespace CreateOrder

/-- Claim C2: for every valid create-order request processed with both
service calls succeeding, the handler builds one order carrying the fresh
server-side id, status PENDING and a TTL of creation time plus 90 days,
persists exactly that one record, publishes exactly one event of type
OrderCreated on the configured bus with the full order as payload, and
returns status 200 with the created order as the body. -/
theorem create_success_contract (env : CreateEnv) (fields : List (String × Json))
    (elems : List Json) (total : ℚ)
    (hc : pyTruthy (dictGet fields "customerId") = true)
    (hi : dictLookup fields "items" = some (.arr elems))
    (hne : elems ≠ [])
    (ht : sumLineTotals elems = .ok total)
    (hput : env.putItemOk = true) (hpub : env.putEventsOk = true) :
    ∃ o : OrderItem,
      handler env (.parsed (.obj fields)) =
        ⟨⟨200, .orderBody o⟩, [o],
          [⟨"ecommerce.orders", "OrderCreated", o,
            (env.eventBusArn.splitOn "/").getLastD ""⟩]⟩ ∧
      o.orderId = env.orderId ∧ o.status = "PENDING" ∧
      o.ttl = env.nowEpoch + 90 * 24 * 60 * 60 := by
  obtain ⟨e, es, rfl⟩ := List.exists_cons_of_ne_nil hne
  have hcl := dictLookup_of_truthy fields "customerId" hc
  have hgi := dictGet_eq_of_lookup fields "items" _ hi
  have hrec := create_order_record_eq env fields _ _ _ hcl hi ht
  have hb : (!pyTruthy (dictGet fields "customerId") ||
      !pyTruthy (dictGet fields "items")) = false := by
    rw [hc, hgi]; simp [pyTruthy]
  refine ⟨{ orderId := env.orderId, timestamp := env.timestamp,
            customerId := dictGet fields "customerId",
            items := .arr (e :: es), totalAmount := total,
            status := "PENDING",
            ttl := env.nowEpoch + 90 * 24 * 60 * 60 }, ?_, rfl, rfl, rfl⟩
  simp [handler, hb, hrec, hput, hpub, publish_order_event]

/-- Claim C2 witness: the concrete valid request on the concrete
environment with both calls succeeding. -/
theorem create_success_contract_witness :
    ∃ o : OrderItem,
      handler envW (.parsed (.obj fieldsW)) =
        ⟨⟨200, .orderBody o⟩, [o],
          [⟨"ecommerce.orders", "OrderCreated", o,
            (envW.eventBusArn.splitOn "/").getLastD ""⟩]⟩ ∧
      o.orderId = envW.orderId ∧ o.status = "PENDING" ∧
      o.ttl = envW.nowEpoch + 90 * 24 * 60 * 60 :=
  create_success_contract envW fieldsW itemsW 51.97
    rfl rfl (List.cons_ne_nil _ _)
    (by simp [itemsW, sumLineTotals, dictLookup, List.find?, Except.map]
        norm_num) rfl rfl

/-- Claim C5: when the store write succeeds but the event publish fails,
the handler returns 500 with the generic error body, the order record
stays persisted (exactly one write) and no event is emitted — no
compensating cleanup happens. -/
theorem create_publish_failure (env : CreateEnv) (fields : List (String × Json))
    (elems : List Json) (total : ℚ)
    (hc : pyTruthy (dictGet fields "customerId") = true)
    (hi : dictLookup fields "items" = some (.arr elems))
    (hne : elems ≠ [])
    (ht : sumLineTotals elems = .ok total)
    (hput : env.putItemOk = true) (hpub : env.putEventsOk = false) :
    ∃ o : OrderItem,
      handler env (.parsed (.obj fields)) =
        ⟨⟨500, .errorMsg "Internal server error"⟩, [o], []⟩ ∧
      o.orderId = env.orderId := by
  obtain ⟨e, es, rfl⟩ := List.exists_cons_of_ne_nil hne
  have hcl := dictLookup_of_truthy fields "customerId" hc
  have hgi := dictGet_eq_of_lookup fields "items" _ hi
  have hrec := create_order_record_eq env fields _ _ _ hcl hi ht
  have hb : (!pyTruthy (dictGet fields "customerId") ||
      !pyTruthy (dictGet fields "items")) = false := by
    rw [hc, hgi]; simp [pyTruthy]
  refine ⟨{ orderId := env.orderId, timestamp := env.timestamp,
            customerId := dictGet fields "customerId",
            items := .arr (e :: es), totalAmount := total,
            status := "PENDING",
            ttl := env.nowEpoch + 90 * 24 * 60 * 60 }, ?_, rfl⟩
  simp [handler, hb, hrec, hput, hpub]

/-- Claim C5 witness: the concrete valid request on the environment whose
`put_events` call fails. -/
theorem create_publish_failure_witness :
    ∃ o : OrderItem,
      handler envFailW (.parsed (.obj fieldsW)) =
        ⟨⟨500, .errorMsg "Internal server error"⟩, [o], []⟩ ∧
      o.orderId = envFailW.orderId :=
  create_publish_failure envFailW fieldsW itemsW 51.97
    rfl rfl (List.cons_ne_nil _ _)
    (by simp [itemsW, sumLineTotals, dictLookup, List.find?, Except.map]
        norm_num) rfl rfl

/-- Claim C4: a request body that does not parse as JSON yields status 400
with error message Invalid JSON, and no write or publish happens. -/
theorem create_invalid_json (env : CreateEnv) :
    handler env .jsonError = ⟨⟨400, .errorMsg "Invalid JSON"⟩, [], []⟩ := rfl

/-- Claim C7: a parsed body lacking a truthy `customerId` or a truthy
`items` yields status 400 with error message Missing required fields, and
neither writes to the store nor publishes an event. -/
theorem create_missing_fields (env : CreateEnv) (fields : List (String × Json))
    (h : pyTruthy (dictGet fields "customerId") = false ∨
         pyTruthy (dictGet fields "items") = false) :
    handler env (.parsed (.obj fields)) =
      ⟨⟨400, .errorMsg "Missing required fields"⟩, [], []⟩ := by
  have hb : (!pyTruthy (dictGet fields "customerId") ||
      !pyTruthy (dictGet fields "items")) = true := by
    cases h with
    | inl h => rw [h]; simp
    | inr h => rw [h]; simp
  simp [handler, hb]

/-- Claim C7 witness: a body with a customer id but no items field. -/
theorem create_missing_fields_witness :
    handler envW (.parsed (.obj [("customerId", .str "c1")])) =
      ⟨⟨400, .errorMsg "Missing required fields"⟩, [], []⟩ :=
  create_missing_fields envW [("customerId", .str "c1")] (Or.inr rfl)

end CreateOrder

namespace GetOrder

/-- Claim C8: a get request whose `orderId` matches no stored order (the
query returns an empty item list) yields status 404 with error message
Order not found. -/
theorem get_not_found (m : List (String × String))
    (h : (m.find? (fun p => p.1 == "orderId")).isSome = true) :
    handler (.params m) (.items []) = ⟨404, .errorMsg "Order not found"⟩ := by
  cases hf : m.find? (fun p => p.1 == "orderId") with
  | none => rw [hf] at h; simp at h
  | some pr => simp [handler, hf, get_order_by_id]

/-- Claim C8 witness: an unknown order id. -/
theorem get_not_found_witness :
    handler (.params [("orderId", "no-such-order")]) (.items []) =
      ⟨404, .errorMsg "Order not found"⟩ :=
  get_not_found [("orderId", "no-such-order")] rfl

/-- Claim C3 counterexample: when the DynamoDB query raises a
`ClientError`, the handler answers 404 Order not found — not 500 as the
claim states. -/
theorem get_client_error_counterexample :
    handler (.params [("orderId", "ord-1")]) .clientError =
      ⟨404, .errorMsg "Order not found"⟩ ∧
    (handler (.params [("orderId", "ord-1")]) .clientError).statusCode ≠ 500 := by
  constructor
  · rfl
  · intro h
    simp [handler, get_order_by_id, List.find?] at h

/-- Claim C3 as amended: a storage `ClientError` during the lookup is
caught inside `get_order_by_id` and swallowed as a miss, so the handler
returns status 404 with Order not found (the 500 branch is reached only
by exceptions that are neither `ClientError` nor `KeyError`). -/
theorem get_client_error_swallowed (m : List (String × String))
    (h : (m.find? (fun p => p.1 == "orderId")).isSome = true) :
    handler (.params m) .clientError = ⟨404, .errorMsg "Order not found"⟩ := by
  cases hf : m.find? (fun p => p.1 == "orderId") with
  | none => rw [hf] at h; simp at h
  | some pr => simp [handler, hf, get_order_by_id]

/-- Claim C3 witness for the amended statement. -/
theorem get_client_error_swallowed_witness :
    handler (.params [("orderId", "ord-2")]) .clientError =
      ⟨404, .errorMsg "Order not found"⟩ :=
  get_client_error_swallowed [("orderId", "ord-2")] rfl

/-- Claim C9: a get request whose path parameters carry no `orderId`
entry (the `pathParameters` key is absent, or maps to a dict without the
key) yields status 400 with error message Missing orderId parameter. -/
theorem get_missing_param (pp : PathParams) (q : QueryOutcome)
    (h : pp = .absent ∨ ∃ m, pp = .params m ∧
      m.find? (fun p => p.1 == "orderId") = none) :
    handler pp q = ⟨400, .errorMsg "Missing orderId parameter"⟩ := by
  cases h with
  | inl h => subst h; rfl
  | inr h =>
    obtain ⟨m, rfl, hf⟩ := h
    simp [handler, hf]

/-- Claim C9 witness: a parameter dict without the `orderId` key. -/
theorem get_missing_param_witness :
    handler (.params [("id", "1")]) (.items []) =
      ⟨400, .errorMsg "Missing orderId parameter"⟩ :=
  get_missing_param (.params [("id", "1")]) (.items [])
    (Or.inr ⟨[("id", "1")], rfl, rfl⟩)

/-- Claim C10: the 400 Missing orderId parameter response happens exactly
when `pathParameters` is absent or is a dict lacking the `orderId` key;
a present-but-null `pathParameters` instead raises a non-KeyError
(`TypeError`) and the handler returns 500 Internal server error. -/
theorem get_param_error_taxonomy (pp : PathParams) (q : QueryOutcome) :
    (handler pp q = ⟨400, .errorMsg "Missing orderId parameter"⟩ ↔
      pp = .absent ∨ ∃ m, pp = .params m ∧
        m.find? (fun p => p.1 == "orderId") = none) ∧
    handler .null q = ⟨500, .errorMsg "Internal server error"⟩ := by
  refine ⟨?_, rfl⟩
  cases pp with
  | absent =>
    simp only [handler]
    exact iff_of_true trivial (Or.inl trivial)
  | null =>
    simp only [handler]
    refine iff_of_false (by simp) ?_
    rintro (h | ⟨m', hm, hfind⟩)
    · exact PathParams.noConfusion h
    · exact PathParams.noConfusion hm
  | params m =>
    cases hf : m.find? (fun p => p.1 == "orderId") with
    | none =>
      simp only [handler, hf]
      exact iff_of_true trivial (Or.inr ⟨m, rfl, hf⟩)
    | some pr =>
      have hrhs : ¬(PathParams.params m = .absent ∨ ∃ m',
          PathParams.params m = .params m' ∧
          m'.find? (fun p => p.1 == "orderId") = none) := by
        rintro (h | ⟨m', hm, hfind⟩)
        · exact PathParams.noConfusion h
        · injection hm with hm'
          subst hm'
          rw [hf] at hfind
          exact Option.noConfusion hfind
      simp only [handler, hf]
      cases hg : get_order_by_id q with
      | none => exact iff_of_false (by simp) hrhs
      | some o =>
        cases ho : pyTruthy o with
        | false => exact iff_of_false (by simp [ho]) hrhs
        | true => exact iff_of_false (by simp [ho]) hrhs

end GetOrder

namespace SiemSinks

/-- Claim C6: the factory maps each recognized configuration string to
its sink variant and raises a `ValueError` naming any other value,
constructing no sink. -/
theorem create_sink_mapping :
    create_sink "opensearch" = .ok .openSearchSink ∧
    create_sink "splunk" = .ok .splunkSink ∧
    create_sink "elastic" = .ok .elasticSink ∧
    ∀ s : String, s ≠ "opensearch" → s ≠ "splunk" → s ≠ "elastic" →
      create_sink s = .error ("Unsupported SIEM sink type: " ++ s) := by
  refine ⟨rfl, rfl, rfl, ?_⟩
  intro s h1 h2 h3
  simp [create_sink, h1, h2, h3]

/-- Claim C6 witness: an unrecognized configuration string. -/
theorem create_sink_mapping_witness :
    create_sink "kafka" = .error ("Unsupported SIEM sink type: " ++ "kafka") :=
  create_sink_mapping.2.2.2 "kafka" (by decide) (by decide) (by decide)

end SiemSinks
